import Mathlib

/-!
# Guest-book backend (`server.js`): request handlers

A shallow embedding of the HTTP handlers of `server.js`.

* JavaScript values that travel through the handlers (request-body fields, query
  parameters, row columns, response bodies) are values of `JsVal`.
* `req.body` is the object the body parsers leave behind: a handler reads its fields,
  an absent field reads as `undefined`; a field holds any JSON value.
* A row of the store is a list of columns whose values are `null`, numbers or strings.
* The store (`db`) and the password verifier (`bcrypt.compare`) are external; they are
  arguments of every handler (`Env`), each a function that either returns a value or
  fails with an error object.  A handler issues every statement text at most once, so a
  function of the statement and its parameters covers every behaviour of the store
  during one request.
* A handler returns the response it sends together with the list of calls it made to
  the store and to the verifier, in order, each paired with what the call returned.
* `console.log/warn/error` write to the log only and are not recorded; the conversion
  to a string of a value interpolated into a logged template literal is part of the
  model, since it throws on some values (`stringifies`).
-/

namespace BukuTamu

/-- JavaScript values: `undefined`, `null`, booleans, numbers, strings, arrays and plain
objects.  A number is represented by an integer (the handlers only test a number for
being zero).  An object is the list of its properties; the first binding of a key is
the property's value. -/
inductive JsVal where
  | undefined : JsVal
  | null : JsVal
  | bool (b : Bool) : JsVal
  | num (n : Int) : JsVal
  | str (s : String) : JsVal
  | arr (items : List JsVal) : JsVal
  | obj (props : List (String × JsVal)) : JsVal

/-- A plain object (`req.body`, a row, an error object): its properties. -/
abbrev Obj := List (String × JsVal)

/-- Property read `o.key` on an object: `undefined` when the object has no such
property. -/
def prop : Obj → String → JsVal
  | [], _ => JsVal.undefined
  | (k, v) :: rest, key => if k = key then v else prop rest key

/-- JavaScript truthiness (`!!v`). -/
def truthy : JsVal → Bool
  | JsVal.undefined => false
  | JsVal.null => false
  | JsVal.bool b => b
  | JsVal.num n => n != 0
  | JsVal.str s => s != ""
  | JsVal.arr _ => true
  | JsVal.obj _ => true

/-- The expression `v || null`. -/
def orNull (v : JsVal) : JsVal :=
  if truthy v then v else JsVal.null

/-- The comparison `v === s` for a string `s`. -/
def strictEqStr : JsVal → String → Bool
  | JsVal.str t, s => t == s
  | _, _ => false

mutual
/-- Whether the conversion of a value to a string, as in a template literal with the
value interpolated, completes.  It throws a `TypeError` on an object with an own
property `toString` (a JSON value, so not callable: neither it nor `valueOf` yields a
primitive) and on an array with an element on which it throws (`join` converts every
element other than `undefined` and `null`). -/
def stringifies : JsVal → Bool
  | JsVal.arr items => stringifiesAll items
  | JsVal.obj props => !props.any (fun p => p.1 == "toString")
  | _ => true
/-- The conversion completes on every value of the list. -/
def stringifiesAll : List JsVal → Bool
  | [] => true
  | v :: vs => stringifies v && stringifiesAll vs
end

/-- A column value of a row: `null`, a number or a string. -/
inductive ColVal where
  | null : ColVal
  | num (n : Int) : ColVal
  | str (s : String) : ColVal

/-- A column value as a JavaScript value. -/
def ColVal.toJs : ColVal → JsVal
  | ColVal.null => JsVal.null
  | ColVal.num n => JsVal.num n
  | ColVal.str s => JsVal.str s

/-- A row of a result set: its columns. -/
abbrev Row := List (String × ColVal)

/-- Column read `row.key`: `undefined` when the row has no such column. -/
def column : Row → String → JsVal
  | [], _ => JsVal.undefined
  | (k, v) :: rest, key => if k = key then v.toJs else column rest key

/-- A row as the object it is. -/
def rowObj (row : Row) : JsVal :=
  JsVal.obj (row.map (fun kv => (kv.1, kv.2.toJs)))

/-- What a statement resolves to: the array of rows of a row-returning statement, or the
result header of a data-modifying one (of which the handlers read `insertId`). -/
inductive Reply where
  | rows (rs : List Row) : Reply
  | header (insertId : JsVal) : Reply

/-- The external collaborators of a request: `query` is `db.query` / `db.promise().query`
(failure: the error object the callback receives or the promise rejects with),
`compare` is `bcrypt.compare` (failure: the error the promise rejects with), `now` is
the value of `new Date()`. -/
structure Env where
  query : String → List JsVal → Except Obj Reply
  compare : JsVal → JsVal → Except Obj Bool
  now : JsVal

/-- One call a handler made, with what it returned. -/
inductive Event where
  | query (sql : String) (params : List JsVal) (result : Except Obj Reply) : Event
  | compare (password hash : JsVal) (result : Except Obj Bool) : Event

/-- The response a handler sends: `res.status(status).json(body)`; `res.json(body)` has
status 200.  `body` is the value handed to `json`. -/
structure Response where
  status : Nat
  body : JsVal

/-- A handled request: the response and the calls made, in order. -/
structure Outcome where
  resp : Response
  trace : List Event

/-- A request whose handler may throw before it responds: the response, if one was sent,
and the calls made, in order. -/
structure Run where
  resp : Option Response
  trace : List Event

/-- The body `{ error: msg }`. -/
def errorBody (msg : String) : JsVal :=
  JsVal.obj [("error", JsVal.str msg)]

/-! ## `GET /api/status` -/

def statusSql : String := "SELECT 1 AS result"

/-- Handler of `GET /api/status`. -/
def status (env : Env) : Outcome :=
  let r := env.query statusSql []
  match r with
  | Except.ok _ =>
    { resp := { status := 200,
                body := JsVal.obj [("status", JsVal.str "online"), ("server", JsVal.str "running"),
                  ("database", JsVal.str "connected"), ("timestamp", env.now)] },
      trace := [Event.query statusSql [] r] }
  | Except.error err =>
    { resp := { status := 500,
                body := JsVal.obj [("status", JsVal.str "degraded"), ("server", JsVal.str "running"),
                  ("database", JsVal.str "disconnected"), ("error_message", prop err "message"),
                  ("timestamp", env.now)] },
      trace := [Event.query statusSql [] r] }

/-! ## `GET /api/schema/tamu` -/

def schemaSql : String := "DESCRIBE tamu"

def requiredColumns : List String :=
  ["id", "nama_lengkap", "jenis_kelamin", "email", "no_hp",
   "pekerjaan", "alamat", "keperluan", "staff", "dituju", "tanggal_kehadiran"]

/-- The list `requiredColumns.filter(col => !results.some(r => r.Field === col))`. -/
def missingColumns (results : List Row) : List String :=
  requiredColumns.filter (fun col => !results.any (fun r => strictEqStr (column r "Field") col))

/-- The success body of the schema handler. -/
def schemaBody (results : List Row) : JsVal :=
  JsVal.obj [("table", JsVal.str "tamu"),
    ("schema", JsVal.arr (results.map rowObj)),
    ("status", JsVal.str (if (missingColumns results).length = 0 then "valid" else "invalid")),
    ("missingColumns",
      if (missingColumns results).length > 0 then JsVal.arr ((missingColumns results).map JsVal.str)
      else JsVal.null)]

/-- Handler of `GET /api/schema/tamu`.  The result is `none` when the callback throws
instead of responding: on a result that is not an array `results.some` is not a
function. -/
def schemaTamu (env : Env) : Option Outcome :=
  let r := env.query schemaSql []
  match r with
  | Except.error _ =>
    some { resp := { status := 500, body := errorBody "Gagal mendapatkan skema tabel 'tamu'" },
           trace := [Event.query schemaSql [] r] }
  | Except.ok (Reply.rows results) =>
    some { resp := { status := 200, body := schemaBody results },
           trace := [Event.query schemaSql [] r] }
  | Except.ok (Reply.header _) => none

/-! ## `POST /api/login` -/

def userLookupSql : String := "SELECT * FROM users WHERE username = ?"

/-- The success body of the user login. -/
def loginBody (user : Row) : JsVal :=
  JsVal.obj [("message", JsVal.str "Login user berhasil"),
    ("user", JsVal.obj [("id", column user "id"), ("name", column user "name"),
      ("nip", column user "nip"), ("username", column user "username")])]

/-- The response of the `catch` block of the user login. -/
def loginFault : Response :=
  { status := 500, body := errorBody "Terjadi kesalahan server saat mengambil data user" }

/-- Handler of `POST /api/login`, on the parsed request body. -/
def login (env : Env) (body : Obj) : Outcome :=
  let username := prop body "username"
  let password := prop body "password"
  if !truthy username || !truthy password then
    { resp := { status := 400, body := errorBody "Username dan password wajib diisi" },
      trace := [] }
  else
    let r := env.query userLookupSql [username]
    let q := Event.query userLookupSql [username] r
    match r with
    | Except.error _ => { resp := loginFault, trace := [q] }
    -- not an array: `results.length` is not 0, `results[0]` is undefined and reading
    -- `user.password` throws inside the `try`
    | Except.ok (Reply.header _) => { resp := loginFault, trace := [q] }
    | Except.ok (Reply.rows []) =>
      { resp := { status := 401, body := errorBody "Username tidak ditemukan" }, trace := [q] }
    | Except.ok (Reply.rows (user :: _)) =>
      let m := env.compare password (column user "password")
      let c := Event.compare password (column user "password") m
      match m with
      | Except.error _ => { resp := loginFault, trace := [q, c] }
      | Except.ok false =>
        { resp := { status := 401, body := errorBody "Password salah" }, trace := [q, c] }
      | Except.ok true => { resp := { status := 200, body := loginBody user }, trace := [q, c] }

/-! ## `POST /api/admin-login` -/

def adminLookupSql : String := "SELECT * FROM admins WHERE nama_pengguna = ?"

def adminLogSql : String :=
  "INSERT INTO log_aktivitas_admin (username_admin, waktu_login) VALUES (?, ?)"

/-- The success body of the admin login. -/
def adminBody (admin : Row) : JsVal :=
  JsVal.obj [("message", JsVal.str "Login admin berhasil"),
    ("admin", JsVal.obj [("id", column admin "id"),
      ("nama_pengguna", column admin "nama_pengguna")])]

/-- The response of the outer `catch` block of the admin login. -/
def adminFault : Response :=
  { status := 500, body := errorBody "Kesalahan server saat mengambil data admin" }

/-- Handler of `POST /api/admin-login`, on the parsed request body.  The first statement
after the destructuring logs a template literal with `nama_pengguna` interpolated, before
the validation and outside the `try`: when that conversion throws the handler ends without
a response and without a call.  The later interpolations are inside the `try`. -/
def adminLogin (env : Env) (body : Obj) : Run :=
  let nama_pengguna := prop body "nama_pengguna"
  let password := prop body "password"
  -- the template literal of the first `console.log`
  if !stringifies nama_pengguna then
    { resp := none, trace := [] }
  else if !truthy nama_pengguna || !truthy password then
    { resp := some { status := 400,
                     body := errorBody "Nama pengguna dan password admin wajib diisi" },
      trace := [] }
  else
    let r := env.query adminLookupSql [nama_pengguna]
    let q := Event.query adminLookupSql [nama_pengguna] r
    match r with
    | Except.error _ => { resp := some adminFault, trace := [q] }
    -- not an array: `results.length` is not 0, `results[0]` is undefined and reading
    -- `admin.password` throws inside the `try`
    | Except.ok (Reply.header _) => { resp := some adminFault, trace := [q] }
    | Except.ok (Reply.rows []) =>
      -- the template literal of `console.warn`, with `nama_pengguna`
      if !stringifies nama_pengguna then { resp := some adminFault, trace := [q] }
      else
        { resp := some { status := 401, body := errorBody "Admin tidak ditemukan" },
          trace := [q] }
    | Except.ok (Reply.rows (admin :: _)) =>
      let m := env.compare password (column admin "password")
      let c := Event.compare password (column admin "password") m
      match m with
      | Except.error _ => { resp := some adminFault, trace := [q, c] }
      | Except.ok false =>
        -- the template literal of `console.warn`, with `admin.nama_pengguna`
        if !stringifies (column admin "nama_pengguna") then
          { resp := some adminFault, trace := [q, c] }
        else
          { resp := some { status := 401, body := errorBody "Password admin salah" },
            trace := [q, c] }
      | Except.ok true =>
        -- the template literal of `console.log`, with `admin.nama_pengguna`
        if !stringifies (column admin "nama_pengguna") then
          { resp := some adminFault, trace := [q, c] }
        else
          let usernameAdmin := column admin "nama_pengguna"
          let waktuLogin := env.now
          let l := env.query adminLogSql [usernameAdmin, waktuLogin]
          let a := Event.query adminLogSql [usernameAdmin, waktuLogin] l
          match l with
          -- inner `try`: the insert resolved
          | Except.ok _ =>
            { resp := some { status := 200, body := adminBody admin }, trace := [q, c, a] }
          -- inner `catch (logErr)`: the insert rejected, the handler goes on
          | Except.error _ =>
            { resp := some { status := 200, body := adminBody admin }, trace := [q, c, a] }

/-! ## `POST /api/tamu` -/

def tamuInsertSql : String :=
  "\n    INSERT INTO tamu \n    (nama_lengkap, jenis_kelamin, email, no_hp, pekerjaan, alamat, keperluan, staff, dituju, tanggal_kehadiran)\n    VALUES (?, ?, ?, ?, ?, ?, ?, ?, ?, ?)\n  "

/-- The array `values` the guest handler passes to the insert. -/
def tamuValues (body : Obj) : List JsVal :=
  [prop body "nama_lengkap", prop body "jenis_kelamin", orNull (prop body "email"),
   orNull (prop body "no_hp"), orNull (prop body "pekerjaan"), orNull (prop body "alamat"),
   orNull (prop body "keperluan"), orNull (prop body "staff"), orNull (prop body "dituju"),
   prop body "tanggal_kehadiran"]

/-- The value `result.insertId`: an array has no such property. -/
def insertIdOf : Reply → JsVal
  | Reply.header insertId => insertId
  | Reply.rows _ => JsVal.undefined

/-- Handler of `POST /api/tamu`, on the parsed request body. -/
def tamu (env : Env) (body : Obj) : Outcome :=
  if !truthy (prop body "nama_lengkap") || !truthy (prop body "jenis_kelamin")
      || !truthy (prop body "tanggal_kehadiran") then
    { resp := { status := 400,
                body := errorBody "Data tamu wajib (nama, jenis kelamin, tanggal hadir) tidak lengkap" },
      trace := [] }
  else
    let r := env.query tamuInsertSql (tamuValues body)
    let q := Event.query tamuInsertSql (tamuValues body) r
    match r with
    | Except.error _ =>
      { resp := { status := 500, body := errorBody "Gagal menyimpan data tamu ke database" },
        trace := [q] }
    | Except.ok result =>
      { resp := { status := 201,
                  body := JsVal.obj [("message", JsVal.str "Data tamu berhasil disimpan"),
                    ("id", insertIdOf result)] },
        trace := [q] }

/-! ## Final error-handling middleware -/

/-- The last middleware, `(err, req, res, next) => ...`: the response it sends for the
error `err` passed down the chain. -/
def errorMiddleware (_err : JsVal) : Response :=
  { status := 500, body := errorBody "Terjadi kesalahan fatal pada server." }

/-! ## Reading a response -/

/-- Field read on a response body: the value of `body.key`, `undefined` when the body is
not an object or has no such field. -/
def field : JsVal → String → JsVal
  | JsVal.obj props, key => prop props key
  | _, _ => JsVal.undefined

/-- The value is a string other than `""`. -/
def nonEmptyStr : JsVal → Bool
  | JsVal.str s => s != ""
  | _ => false

/-- The names of the fields of a response body, in order. -/
def fieldNames : JsVal → List String
  | JsVal.obj props => props.map Prod.fst
  | _ => []

/-! ## Sample rows, bodies and collaborators -/

def sampleUser : Row :=
  [("id", ColVal.num 7), ("name", ColVal.str "Siti"), ("nip", ColVal.str "19870312"),
   ("username", ColVal.str "siti"), ("password", ColVal.str "$2a$10$abcdefghijklmnopqrstuv")]

def sampleAdmin : Row :=
  [("id", ColVal.num 1), ("nama_pengguna", ColVal.str "admin"),
   ("password", ColVal.str "$2a$10$zyxwvutsrqponmlkjihgfe")]

/-- An admin login whose `nama_pengguna` is the object `{"toString": 1}` and whose
`password` is missing. -/
def shadowedAdminLogin : Obj :=
  [("nama_pengguna", JsVal.obj [("toString", JsVal.num 1)])]

def sampleLogin : Obj := [("username", JsVal.str "siti"), ("password", JsVal.str "rahasia")]

def sampleAdminLogin : Obj :=
  [("nama_pengguna", JsVal.str "admin"), ("password", JsVal.str "rahasia")]

def sampleGuest : Obj :=
  [("nama_lengkap", JsVal.str "Budi"), ("jenis_kelamin", JsVal.str "L"),
   ("tanggal_kehadiran", JsVal.str "2024-05-01")]

def sampleNow : JsVal := JsVal.str "2024-05-01T08:00:00.000Z"

/-- A store that answers every statement with `q` and a verifier that answers every
comparison with `c`. -/
def fixedEnv (q : Except Obj Reply) (c : Except Obj Bool) : Env :=
  { query := fun _ _ => q, compare := fun _ _ => c, now := sampleNow }

/-- A store whose lookups return the row `row` and whose insert into the admin log
answers `l`; the verifier accepts. -/
def auditEnv (row : Row) (l : Except Obj Reply) : Env :=
  { query := fun sql _ => if sql = adminLogSql then l else Except.ok (Reply.rows [row]),
    compare := fun _ _ => Except.ok true,
    now := sampleNow }

/-- An error object with the given message. -/
def errorObj (msg : String) : Obj := [("message", JsVal.str msg)]

/-- Column descriptors of a `tamu` table that has every required column but `email`. -/
def sampleColumns : List Row :=
  [[("Field", ColVal.str "id"), ("Type", ColVal.str "int")],
   [("Field", ColVal.str "nama_lengkap"), ("Type", ColVal.str "varchar(100)")],
   [("Field", ColVal.str "jenis_kelamin"), ("Type", ColVal.str "varchar(10)")],
   [("Field", ColVal.str "no_hp"), ("Type", ColVal.str "varchar(20)")],
   [("Field", ColVal.str "pekerjaan"), ("Type", ColVal.str "varchar(100)")],
   [("Field", ColVal.str "alamat"), ("Type", ColVal.str "text")],
   [("Field", ColVal.str "keperluan"), ("Type", ColVal.str "text")],
   [("Field", ColVal.str "staff"), ("Type", ColVal.str "varchar(100)")],
   [("Field", ColVal.str "dituju"), ("Type", ColVal.str "varchar(100)")],
   [("Field", ColVal.str "tanggal_kehadiran"), ("Type", ColVal.str "date")],
   [("Field", ColVal.str "created_at"), ("Type", ColVal.str "timestamp")]]

/-! ## Unfolding the handlers, one branch at a time -/

theorem login_invalid (env : Env) (body : Obj)
    (h : truthy (prop body "username") = false ∨ truthy (prop body "password") = false) :
    login env body =
      { resp := { status := 400, body := errorBody "Username dan password wajib diisi" },
        trace := [] } := by
  unfold login
  rcases h with h | h <;> simp [h]

theorem login_valid (env : Env) (body : Obj)
    (hu : truthy (prop body "username") = true) (hp : truthy (prop body "password") = true) :
    login env body =
      match env.query userLookupSql [prop body "username"] with
      | Except.error e =>
        { resp := loginFault,
          trace := [Event.query userLookupSql [prop body "username"] (Except.error e)] }
      | Except.ok (Reply.header i) =>
        { resp := loginFault,
          trace := [Event.query userLookupSql [prop body "username"]
            (Except.ok (Reply.header i))] }
      | Except.ok (Reply.rows []) =>
        { resp := { status := 401, body := errorBody "Username tidak ditemukan" },
          trace := [Event.query userLookupSql [prop body "username"]
            (Except.ok (Reply.rows []))] }
      | Except.ok (Reply.rows (user :: rest)) =>
        { resp :=
            match env.compare (prop body "password") (column user "password") with
            | Except.error _ => loginFault
            | Except.ok false => { status := 401, body := errorBody "Password salah" }
            | Except.ok true => { status := 200, body := loginBody user },
          trace := [Event.query userLookupSql [prop body "username"]
              (Except.ok (Reply.rows (user :: rest))),
            Event.compare (prop body "password") (column user "password")
              (env.compare (prop body "password") (column user "password"))] } := by
  unfold login
  simp only [hu, hp, Bool.not_true, Bool.or_self, Bool.false_eq_true, if_false]
  cases hq : env.query userLookupSql [prop body "username"] with
  | error e => rfl
  | ok reply =>
    cases reply with
    | header i => rfl
    | rows rs =>
      cases rs with
      | nil => rfl
      | cons user rest =>
        simp only
        cases hm : env.compare (prop body "password") (column user "password") with
        | error e => rfl
        | ok b => cases b <;> rfl

theorem stringifies_column (row : Row) (key : String) :
    stringifies (column row key) = true := by
  induction row with
  | nil => rfl
  | cons kv rest ih =>
    obtain ⟨k, v⟩ := kv
    unfold column
    split
    · cases v <;> rfl
    · exact ih

theorem adminLogin_throws (env : Env) (body : Obj)
    (hs : stringifies (prop body "nama_pengguna") = false) :
    adminLogin env body = { resp := none, trace := [] } := by
  unfold adminLogin
  simp [hs]

theorem adminLogin_invalid (env : Env) (body : Obj)
    (hs : stringifies (prop body "nama_pengguna") = true)
    (h : truthy (prop body "nama_pengguna") = false ∨ truthy (prop body "password") = false) :
    adminLogin env body =
      { resp := some { status := 400,
                       body := errorBody "Nama pengguna dan password admin wajib diisi" },
        trace := [] } := by
  unfold adminLogin
  rcases h with h | h <;> simp [hs, h]

theorem adminLogin_valid (env : Env) (body : Obj)
    (hs : stringifies (prop body "nama_pengguna") = true)
    (hu : truthy (prop body "nama_pengguna") = true)
    (hp : truthy (prop body "password") = true) :
    adminLogin env body =
      match env.query adminLookupSql [prop body "nama_pengguna"] with
      | Except.error e =>
        { resp := some adminFault,
          trace := [Event.query adminLookupSql [prop body "nama_pengguna"] (Except.error e)] }
      | Except.ok (Reply.header i) =>
        { resp := some adminFault,
          trace := [Event.query adminLookupSql [prop body "nama_pengguna"]
            (Except.ok (Reply.header i))] }
      | Except.ok (Reply.rows []) =>
        { resp := some { status := 401, body := errorBody "Admin tidak ditemukan" },
          trace := [Event.query adminLookupSql [prop body "nama_pengguna"]
            (Except.ok (Reply.rows []))] }
      | Except.ok (Reply.rows (admin :: rest)) =>
        match env.compare (prop body "password") (column admin "password") with
        | Except.error e =>
          { resp := some adminFault,
            trace := [Event.query adminLookupSql [prop body "nama_pengguna"]
                (Except.ok (Reply.rows (admin :: rest))),
              Event.compare (prop body "password") (column admin "password")
                (Except.error e)] }
        | Except.ok false =>
          { resp := some { status := 401, body := errorBody "Password admin salah" },
            trace := [Event.query adminLookupSql [prop body "nama_pengguna"]
                (Except.ok (Reply.rows (admin :: rest))),
              Event.compare (prop body "password") (column admin "password")
                (Except.ok false)] }
        | Except.ok true =>
          { resp := some { status := 200, body := adminBody admin },
            trace := [Event.query adminLookupSql [prop body "nama_pengguna"]
                (Except.ok (Reply.rows (admin :: rest))),
              Event.compare (prop body "password") (column admin "password") (Except.ok true),
              Event.query adminLogSql [column admin "nama_pengguna", env.now]
                (env.query adminLogSql [column admin "nama_pengguna", env.now])] } := by
  unfold adminLogin
  simp only [hs, hu, hp, Bool.not_true, Bool.or_self, Bool.false_eq_true, if_false]
  cases hq : env.query adminLookupSql [prop body "nama_pengguna"] with
  | error e => rfl
  | ok reply =>
    cases reply with
    | header i => rfl
    | rows rs =>
      cases rs with
      | nil => rfl
      | cons admin rest =>
        simp only
        cases hm : env.compare (prop body "password") (column admin "password") with
        | error e => rfl
        | ok b =>
          cases b with
          | false =>
            simp only [stringifies_column, Bool.not_true, Bool.false_eq_true, if_false]
          | true =>
            simp only [stringifies_column, Bool.not_true, Bool.false_eq_true, if_false]
            cases hl : env.query adminLogSql [column admin "nama_pengguna", env.now] <;> rfl

theorem tamu_invalid (env : Env) (body : Obj)
    (h : truthy (prop body "nama_lengkap") = false ∨ truthy (prop body "jenis_kelamin") = false
      ∨ truthy (prop body "tanggal_kehadiran") = false) :
    tamu env body =
      { resp := { status := 400,
                  body := errorBody
                    "Data tamu wajib (nama, jenis kelamin, tanggal hadir) tidak lengkap" },
        trace := [] } := by
  unfold tamu
  rcases h with h | h | h <;> simp [h]

theorem tamu_valid (env : Env) (body : Obj)
    (h1 : truthy (prop body "nama_lengkap") = true)
    (h2 : truthy (prop body "jenis_kelamin") = true)
    (h3 : truthy (prop body "tanggal_kehadiran") = true) :
    tamu env body =
      { resp :=
          match env.query tamuInsertSql (tamuValues body) with
          | Except.error _ =>
            { status := 500, body := errorBody "Gagal menyimpan data tamu ke database" }
          | Except.ok result =>
            { status := 201,
              body := JsVal.obj [("message", JsVal.str "Data tamu berhasil disimpan"),
                ("id", insertIdOf result)] },
        trace := [Event.query tamuInsertSql (tamuValues body)
          (env.query tamuInsertSql (tamuValues body))] } := by
  unfold tamu
  simp only [h1, h2, h3, Bool.not_true, Bool.or_self, Bool.false_eq_true, if_false]
  cases hq : env.query tamuInsertSql (tamuValues body) <;> rfl

theorem login_store_fault (env : Env) (body : Obj) (e : Obj)
    (hu : truthy (prop body "username") = true) (hp : truthy (prop body "password") = true)
    (hq : env.query userLookupSql [prop body "username"] = Except.error e) :
    login env body =
      { resp := loginFault,
        trace := [Event.query userLookupSql [prop body "username"] (Except.error e)] } := by
  rw [login_valid env body hu hp, hq]

theorem login_not_rows (env : Env) (body : Obj) (i : JsVal)
    (hu : truthy (prop body "username") = true) (hp : truthy (prop body "password") = true)
    (hq : env.query userLookupSql [prop body "username"] = Except.ok (Reply.header i)) :
    login env body =
      { resp := loginFault,
        trace := [Event.query userLookupSql [prop body "username"]
          (Except.ok (Reply.header i))] } := by
  rw [login_valid env body hu hp, hq]

theorem login_no_row (env : Env) (body : Obj)
    (hu : truthy (prop body "username") = true) (hp : truthy (prop body "password") = true)
    (hq : env.query userLookupSql [prop body "username"] = Except.ok (Reply.rows [])) :
    login env body =
      { resp := { status := 401, body := errorBody "Username tidak ditemukan" },
        trace := [Event.query userLookupSql [prop body "username"]
          (Except.ok (Reply.rows []))] } := by
  rw [login_valid env body hu hp, hq]

theorem login_row (env : Env) (body : Obj) (user : Row) (rest : List Row)
    (hu : truthy (prop body "username") = true) (hp : truthy (prop body "password") = true)
    (hq : env.query userLookupSql [prop body "username"] =
      Except.ok (Reply.rows (user :: rest))) :
    login env body =
      { resp :=
          match env.compare (prop body "password") (column user "password") with
          | Except.error _ => loginFault
          | Except.ok false => { status := 401, body := errorBody "Password salah" }
          | Except.ok true => { status := 200, body := loginBody user },
        trace := [Event.query userLookupSql [prop body "username"]
            (Except.ok (Reply.rows (user :: rest))),
          Event.compare (prop body "password") (column user "password")
            (env.compare (prop body "password") (column user "password"))] } := by
  rw [login_valid env body hu hp, hq]

theorem adminLogin_store_fault (env : Env) (body : Obj) (e : Obj)
    (hs : stringifies (prop body "nama_pengguna") = true)
    (hu : truthy (prop body "nama_pengguna") = true)
    (hp : truthy (prop body "password") = true)
    (hq : env.query adminLookupSql [prop body "nama_pengguna"] = Except.error e) :
    adminLogin env body =
      { resp := some adminFault,
        trace := [Event.query adminLookupSql [prop body "nama_pengguna"] (Except.error e)] } := by
  rw [adminLogin_valid env body hs hu hp, hq]

theorem adminLogin_not_rows (env : Env) (body : Obj) (i : JsVal)
    (hs : stringifies (prop body "nama_pengguna") = true)
    (hu : truthy (prop body "nama_pengguna") = true)
    (hp : truthy (prop body "password") = true)
    (hq : env.query adminLookupSql [prop body "nama_pengguna"] = Except.ok (Reply.header i)) :
    adminLogin env body =
      { resp := some adminFault,
        trace := [Event.query adminLookupSql [prop body "nama_pengguna"]
          (Except.ok (Reply.header i))] } := by
  rw [adminLogin_valid env body hs hu hp, hq]

theorem adminLogin_no_row (env : Env) (body : Obj)
    (hs : stringifies (prop body "nama_pengguna") = true)
    (hu : truthy (prop body "nama_pengguna") = true)
    (hp : truthy (prop body "password") = true)
    (hq : env.query adminLookupSql [prop body "nama_pengguna"] = Except.ok (Reply.rows [])) :
    adminLogin env body =
      { resp := some { status := 401, body := errorBody "Admin tidak ditemukan" },
        trace := [Event.query adminLookupSql [prop body "nama_pengguna"]
          (Except.ok (Reply.rows []))] } := by
  rw [adminLogin_valid env body hs hu hp, hq]

theorem adminLogin_verifier_fault (env : Env) (body : Obj) (admin : Row) (rest : List Row)
    (e : Obj)
    (hs : stringifies (prop body "nama_pengguna") = true)
    (hu : truthy (prop body "nama_pengguna") = true)
    (hp : truthy (prop body "password") = true)
    (hq : env.query adminLookupSql [prop body "nama_pengguna"] =
      Except.ok (Reply.rows (admin :: rest)))
    (hm : env.compare (prop body "password") (column admin "password") = Except.error e) :
    adminLogin env body =
      { resp := some adminFault,
        trace := [Event.query adminLookupSql [prop body "nama_pengguna"]
            (Except.ok (Reply.rows (admin :: rest))),
          Event.compare (prop body "password") (column admin "password") (Except.error e)] } := by
  rw [adminLogin_valid env body hs hu hp, hq]
  simp only [hm]

theorem adminLogin_mismatch (env : Env) (body : Obj) (admin : Row) (rest : List Row)
    (hs : stringifies (prop body "nama_pengguna") = true)
    (hu : truthy (prop body "nama_pengguna") = true)
    (hp : truthy (prop body "password") = true)
    (hq : env.query adminLookupSql [prop body "nama_pengguna"] =
      Except.ok (Reply.rows (admin :: rest)))
    (hm : env.compare (prop body "password") (column admin "password") = Except.ok false) :
    adminLogin env body =
      { resp := some { status := 401, body := errorBody "Password admin salah" },
        trace := [Event.query adminLookupSql [prop body "nama_pengguna"]
            (Except.ok (Reply.rows (admin :: rest))),
          Event.compare (prop body "password") (column admin "password") (Except.ok false)] } := by
  rw [adminLogin_valid env body hs hu hp, hq]
  simp only [hm]

theorem adminLogin_match (env : Env) (body : Obj) (admin : Row) (rest : List Row)
    (hs : stringifies (prop body "nama_pengguna") = true)
    (hu : truthy (prop body "nama_pengguna") = true)
    (hp : truthy (prop body "password") = true)
    (hq : env.query adminLookupSql [prop body "nama_pengguna"] =
      Except.ok (Reply.rows (admin :: rest)))
    (hm : env.compare (prop body "password") (column admin "password") = Except.ok true) :
    adminLogin env body =
      { resp := some { status := 200, body := adminBody admin },
        trace := [Event.query adminLookupSql [prop body "nama_pengguna"]
            (Except.ok (Reply.rows (admin :: rest))),
          Event.compare (prop body "password") (column admin "password") (Except.ok true),
          Event.query adminLogSql [column admin "nama_pengguna", env.now]
            (env.query adminLogSql [column admin "nama_pengguna", env.now])] } := by
  rw [adminLogin_valid env body hs hu hp, hq]
  simp only [hm]

/-- The admin login made a call only if the conversion of `nama_pengguna` completed and
both credentials were non-empty. -/
theorem adminLogin_called (env : Env) (body : Obj) (ev : Event)
    (h : ev ∈ (adminLogin env body).trace) :
    stringifies (prop body "nama_pengguna") = true ∧
      truthy (prop body "nama_pengguna") = true ∧ truthy (prop body "password") = true := by
  cases hs : stringifies (prop body "nama_pengguna") with
  | false => rw [adminLogin_throws env body hs] at h; simp at h
  | true =>
    cases hu : truthy (prop body "nama_pengguna") with
    | false => rw [adminLogin_invalid env body hs (Or.inl hu)] at h; simp at h
    | true =>
      cases hp : truthy (prop body "password") with
      | false => rw [adminLogin_invalid env body hs (Or.inr hp)] at h; simp at h
      | true => exact ⟨rfl, rfl, rfl⟩

/-! ## What an entry of the trace says about the collaborators -/

theorem login_lookup_event (env : Env) (body : Obj) (params : List JsVal)
    (r : Except Obj Reply)
    (h : Event.query userLookupSql params r ∈ (login env body).trace) :
    truthy (prop body "username") = true ∧ truthy (prop body "password") = true ∧
      env.query userLookupSql [prop body "username"] = r := by
  cases hu : truthy (prop body "username") with
  | false => rw [login_invalid env body (Or.inl hu)] at h; simp at h
  | true =>
    cases hp : truthy (prop body "password") with
    | false => rw [login_invalid env body (Or.inr hp)] at h; simp at h
    | true =>
      refine ⟨rfl, rfl, ?_⟩
      cases hq : env.query userLookupSql [prop body "username"] with
      | error e =>
        rw [login_store_fault env body e hu hp hq] at h
        simp at h
        exact h.2.symm
      | ok reply =>
        cases reply with
        | header i =>
          rw [login_not_rows env body i hu hp hq] at h
          simp at h
          exact h.2.symm
        | rows rs =>
          cases rs with
          | nil =>
            rw [login_no_row env body hu hp hq] at h
            simp at h
            exact h.2.symm
          | cons user rest =>
            rw [login_row env body user rest hu hp hq] at h
            simp at h
            exact h.2.symm

theorem login_compare_event (env : Env) (body : Obj) (pw hash : JsVal)
    (m : Except Obj Bool)
    (h : Event.compare pw hash m ∈ (login env body).trace) :
    ∃ user rest,
      env.query userLookupSql [prop body "username"] = Except.ok (Reply.rows (user :: rest)) ∧
      env.compare (prop body "password") (column user "password") = m := by
  cases hu : truthy (prop body "username") with
  | false => rw [login_invalid env body (Or.inl hu)] at h; simp at h
  | true =>
    cases hp : truthy (prop body "password") with
    | false => rw [login_invalid env body (Or.inr hp)] at h; simp at h
    | true =>
      cases hq : env.query userLookupSql [prop body "username"] with
      | error e => rw [login_store_fault env body e hu hp hq] at h; simp at h
      | ok reply =>
        cases reply with
        | header i => rw [login_not_rows env body i hu hp hq] at h; simp at h
        | rows rs =>
          cases rs with
          | nil => rw [login_no_row env body hu hp hq] at h; simp at h
          | cons user rest =>
            rw [login_row env body user rest hu hp hq] at h
            simp at h
            exact ⟨user, rest, rfl, h.2.2.symm⟩

theorem adminLogin_lookup_event (env : Env) (body : Obj) (params : List JsVal)
    (r : Except Obj Reply)
    (h : Event.query adminLookupSql params r ∈ (adminLogin env body).trace) :
    stringifies (prop body "nama_pengguna") = true ∧
      truthy (prop body "nama_pengguna") = true ∧ truthy (prop body "password") = true ∧
      env.query adminLookupSql [prop body "nama_pengguna"] = r := by
  obtain ⟨hs, hu, hp⟩ := adminLogin_called env body _ h
  refine ⟨hs, hu, hp, ?_⟩
  cases hq : env.query adminLookupSql [prop body "nama_pengguna"] with
  | error e =>
    rw [adminLogin_store_fault env body e hs hu hp hq] at h
    simp at h
    exact h.2.symm
  | ok reply =>
    cases reply with
    | header i =>
      rw [adminLogin_not_rows env body i hs hu hp hq] at h
      simp at h
      exact h.2.symm
    | rows rs =>
      cases rs with
      | nil =>
        rw [adminLogin_no_row env body hs hu hp hq] at h
        simp at h
        exact h.2.symm
      | cons admin rest =>
        cases hm : env.compare (prop body "password") (column admin "password") with
        | error e =>
          rw [adminLogin_verifier_fault env body admin rest e hs hu hp hq hm] at h
          simp at h
          exact h.2.symm
        | ok b =>
          cases b with
          | false =>
            rw [adminLogin_mismatch env body admin rest hs hu hp hq hm] at h
            simp at h
            exact h.2.symm
          | true =>
            rw [adminLogin_match env body admin rest hs hu hp hq hm] at h
            simp [adminLogSql, adminLookupSql] at h
            exact h.2.symm

theorem adminLogin_compare_event (env : Env) (body : Obj) (pw hash : JsVal)
    (m : Except Obj Bool)
    (h : Event.compare pw hash m ∈ (adminLogin env body).trace) :
    ∃ admin rest,
      env.query adminLookupSql [prop body "nama_pengguna"] =
        Except.ok (Reply.rows (admin :: rest)) ∧
      env.compare (prop body "password") (column admin "password") = m := by
  obtain ⟨hs, hu, hp⟩ := adminLogin_called env body _ h
  cases hq : env.query adminLookupSql [prop body "nama_pengguna"] with
  | error e => rw [adminLogin_store_fault env body e hs hu hp hq] at h; simp at h
  | ok reply =>
    cases reply with
    | header i => rw [adminLogin_not_rows env body i hs hu hp hq] at h; simp at h
    | rows rs =>
      cases rs with
      | nil => rw [adminLogin_no_row env body hs hu hp hq] at h; simp at h
      | cons admin rest =>
        refine ⟨admin, rest, rfl, ?_⟩
        cases hm : env.compare (prop body "password") (column admin "password") with
        | error e =>
          rw [adminLogin_verifier_fault env body admin rest e hs hu hp hq hm] at h
          simp at h
          exact h.2.2.symm
        | ok b =>
          cases b with
          | false =>
            rw [adminLogin_mismatch env body admin rest hs hu hp hq hm] at h
            simp at h
            exact h.2.2.symm
          | true =>
            rw [adminLogin_match env body admin rest hs hu hp hq hm] at h
            simp at h
            exact h.2.2.symm

/-- A lookup that returned `user :: rest` and a verifier that returned `true`: the user
login took its success branch. -/
theorem login_accepted (env : Env) (body : Obj) (user : Row) (rest : List Row)
    (hq : ∃ params,
      Event.query userLookupSql params (Except.ok (Reply.rows (user :: rest))) ∈
        (login env body).trace)
    (hc : ∃ pw hash, Event.compare pw hash (Except.ok true) ∈ (login env body).trace) :
    login env body =
      { resp := { status := 200, body := loginBody user },
        trace := [Event.query userLookupSql [prop body "username"]
            (Except.ok (Reply.rows (user :: rest))),
          Event.compare (prop body "password") (column user "password") (Except.ok true)] } := by
  obtain ⟨params, hq⟩ := hq
  obtain ⟨pw, hash, hc⟩ := hc
  obtain ⟨hu, hp, hq⟩ := login_lookup_event env body params _ hq
  obtain ⟨user2, rest2, hq2, hm⟩ := login_compare_event env body pw hash _ hc
  rw [hq] at hq2
  simp only [Except.ok.injEq, Reply.rows.injEq, List.cons.injEq] at hq2
  obtain ⟨rfl, rfl⟩ := hq2
  rw [login_row env body user rest hu hp hq, hm]

/-- A lookup that returned `admin :: rest` and a verifier that returned `true`: the
admin login took its success branch. -/
theorem adminLogin_accepted (env : Env) (body : Obj) (admin : Row) (rest : List Row)
    (hq : ∃ params,
      Event.query adminLookupSql params (Except.ok (Reply.rows (admin :: rest))) ∈
        (adminLogin env body).trace)
    (hc : ∃ pw hash, Event.compare pw hash (Except.ok true) ∈ (adminLogin env body).trace) :
    adminLogin env body =
      { resp := some { status := 200, body := adminBody admin },
        trace := [Event.query adminLookupSql [prop body "nama_pengguna"]
            (Except.ok (Reply.rows (admin :: rest))),
          Event.compare (prop body "password") (column admin "password") (Except.ok true),
          Event.query adminLogSql [column admin "nama_pengguna", env.now]
            (env.query adminLogSql [column admin "nama_pengguna", env.now])] } := by
  obtain ⟨params, hq⟩ := hq
  obtain ⟨pw, hash, hc⟩ := hc
  obtain ⟨hs, hu, hp, hq⟩ := adminLogin_lookup_event env body params _ hq
  obtain ⟨admin2, rest2, hq2, hm⟩ := adminLogin_compare_event env body pw hash _ hc
  rw [hq] at hq2
  simp only [Except.ok.injEq, Reply.rows.injEq, List.cons.injEq] at hq2
  obtain ⟨rfl, rfl⟩ := hq2
  exact adminLogin_match env body admin rest hs hu hp hq hm

/-- A lookup that returned `admin :: rest` and a verifier that returned `false`: the
admin login took its wrong-password branch. -/
theorem adminLogin_rejected (env : Env) (body : Obj) (admin : Row) (rest : List Row)
    (hq : ∃ params,
      Event.query adminLookupSql params (Except.ok (Reply.rows (admin :: rest))) ∈
        (adminLogin env body).trace)
    (hc : ∃ pw hash, Event.compare pw hash (Except.ok false) ∈ (adminLogin env body).trace) :
    adminLogin env body =
      { resp := some { status := 401, body := errorBody "Password admin salah" },
        trace := [Event.query adminLookupSql [prop body "nama_pengguna"]
            (Except.ok (Reply.rows (admin :: rest))),
          Event.compare (prop body "password") (column admin "password") (Except.ok false)] } := by
  obtain ⟨params, hq⟩ := hq
  obtain ⟨pw, hash, hc⟩ := hc
  obtain ⟨hs, hu, hp, hq⟩ := adminLogin_lookup_event env body params _ hq
  obtain ⟨admin2, rest2, hq2, hm⟩ := adminLogin_compare_event env body pw hash _ hc
  rw [hq] at hq2
  simp only [Except.ok.injEq, Reply.rows.injEq, List.cons.injEq] at hq2
  obtain ⟨rfl, rfl⟩ := hq2
  exact adminLogin_mismatch env body admin rest hs hu hp hq hm

/-- A lookup that returned no row: the admin login took its not-found branch. -/
theorem adminLogin_unknown (env : Env) (body : Obj)
    (hq : ∃ params,
      Event.query adminLookupSql params (Except.ok (Reply.rows [])) ∈
        (adminLogin env body).trace) :
    adminLogin env body =
      { resp := some { status := 401, body := errorBody "Admin tidak ditemukan" },
        trace := [Event.query adminLookupSql [prop body "nama_pengguna"]
          (Except.ok (Reply.rows []))] } := by
  obtain ⟨params, hq⟩ := hq
  obtain ⟨hs, hu, hp, hq⟩ := adminLogin_lookup_event env body params _ hq
  exact adminLogin_no_row env body hs hu hp hq

/-! ## The column comparison of the schema handler -/

theorem strictEqStr_iff (v : JsVal) (s : String) :
    strictEqStr v s = true ↔ v = JsVal.str s := by
  cases v <;> simp [strictEqStr]

theorem any_field_iff (results : List Row) (col : String) :
    results.any (fun r => strictEqStr (column r "Field") col) = true ↔
      ∃ r ∈ results, column r "Field" = JsVal.str col := by
  simp [List.any_eq_true, strictEqStr_iff]

theorem mem_missingColumns (results : List Row) (col : String) :
    col ∈ missingColumns results ↔
      col ∈ requiredColumns ∧ ∀ r ∈ results, column r "Field" ≠ JsVal.str col := by
  unfold missingColumns
  rw [List.mem_filter]
  constructor
  · rintro ⟨hreq, hnot⟩
    refine ⟨hreq, fun r hr heq => ?_⟩
    have hany := (any_field_iff results col).2 ⟨r, hr, heq⟩
    rw [hany] at hnot
    exact absurd hnot (by decide)
  · rintro ⟨hreq, hall⟩
    refine ⟨hreq, ?_⟩
    cases hany : results.any (fun r => strictEqStr (column r "Field") col) with
    | false => rfl
    | true =>
      obtain ⟨r, hr, heq⟩ := (any_field_iff results col).1 hany
      exact absurd heq (hall r hr)

theorem requiredColumns_nodup : requiredColumns.Nodup := by
  decide

/-! ## The failure responses of each handler -/

theorem login_failure_body (env : Env) (body : Obj)
    (hs : 400 ≤ (login env body).resp.status) :
    ∃ msg, (login env body).resp.body = JsVal.obj [("error", JsVal.str msg)] ∧ msg ≠ "" := by
  cases hu : truthy (prop body "username") with
  | false => rw [login_invalid env body (Or.inl hu)]; exact ⟨_, rfl, by decide⟩
  | true =>
    cases hp : truthy (prop body "password") with
    | false => rw [login_invalid env body (Or.inr hp)]; exact ⟨_, rfl, by decide⟩
    | true =>
      cases hq : env.query userLookupSql [prop body "username"] with
      | error e => rw [login_store_fault env body e hu hp hq]; exact ⟨_, rfl, by decide⟩
      | ok reply =>
        cases reply with
        | header i => rw [login_not_rows env body i hu hp hq]; exact ⟨_, rfl, by decide⟩
        | rows rs =>
          cases rs with
          | nil => rw [login_no_row env body hu hp hq]; exact ⟨_, rfl, by decide⟩
          | cons user rest =>
            rw [login_row env body user rest hu hp hq] at hs ⊢
            cases hm : env.compare (prop body "password") (column user "password") with
            | error e => exact ⟨_, rfl, by decide⟩
            | ok b =>
              cases b with
              | false => exact ⟨_, rfl, by decide⟩
              | true => simp [hm] at hs

theorem adminLogin_failure_body (env : Env) (body : Obj) (r : Response)
    (hr : (adminLogin env body).resp = some r) (hge : 400 ≤ r.status) :
    ∃ msg, r.body = JsVal.obj [("error", JsVal.str msg)] ∧ msg ≠ "" := by
  cases hs : stringifies (prop body "nama_pengguna") with
  | false => rw [adminLogin_throws env body hs] at hr; simp at hr
  | true =>
    cases hu : truthy (prop body "nama_pengguna") with
    | false =>
      rw [adminLogin_invalid env body hs (Or.inl hu)] at hr
      simp only [Option.some.injEq] at hr
      subst hr
      exact ⟨_, rfl, by decide⟩
    | true =>
      cases hp : truthy (prop body "password") with
      | false =>
        rw [adminLogin_invalid env body hs (Or.inr hp)] at hr
        simp only [Option.some.injEq] at hr
        subst hr
        exact ⟨_, rfl, by decide⟩
      | true =>
        cases hq : env.query adminLookupSql [prop body "nama_pengguna"] with
        | error e =>
          rw [adminLogin_store_fault env body e hs hu hp hq] at hr
          simp only [Option.some.injEq] at hr
          subst hr
          exact ⟨_, rfl, by decide⟩
        | ok reply =>
          cases reply with
          | header i =>
            rw [adminLogin_not_rows env body i hs hu hp hq] at hr
            simp only [Option.some.injEq] at hr
            subst hr
            exact ⟨_, rfl, by decide⟩
          | rows rs =>
            cases rs with
            | nil =>
              rw [adminLogin_no_row env body hs hu hp hq] at hr
              simp only [Option.some.injEq] at hr
              subst hr
              exact ⟨_, rfl, by decide⟩
            | cons admin rest =>
              cases hm : env.compare (prop body "password") (column admin "password") with
              | error e =>
                rw [adminLogin_verifier_fault env body admin rest e hs hu hp hq hm] at hr
                simp only [Option.some.injEq] at hr
                subst hr
                exact ⟨_, rfl, by decide⟩
              | ok b =>
                cases b with
                | false =>
                  rw [adminLogin_mismatch env body admin rest hs hu hp hq hm] at hr
                  simp only [Option.some.injEq] at hr
                  subst hr
                  exact ⟨_, rfl, by decide⟩
                | true =>
                  rw [adminLogin_match env body admin rest hs hu hp hq hm] at hr
                  simp only [Option.some.injEq] at hr
                  subst hr
                  simp at hge

theorem tamu_failure_body (env : Env) (body : Obj)
    (hs : 400 ≤ (tamu env body).resp.status) :
    ∃ msg, (tamu env body).resp.body = JsVal.obj [("error", JsVal.str msg)] ∧ msg ≠ "" := by
  by_cases hreq : truthy (prop body "nama_lengkap") = true ∧
      truthy (prop body "jenis_kelamin") = true ∧ truthy (prop body "tanggal_kehadiran") = true
  · obtain ⟨h1, h2, h3⟩ := hreq
    rw [tamu_valid env body h1 h2 h3] at hs ⊢
    cases hq : env.query tamuInsertSql (tamuValues body) with
    | error e => exact ⟨_, rfl, by decide⟩
    | ok result => simp [hq] at hs
  · have hmiss : truthy (prop body "nama_lengkap") = false ∨
        truthy (prop body "jenis_kelamin") = false ∨
        truthy (prop body "tanggal_kehadiran") = false := by
      cases h1 : truthy (prop body "nama_lengkap") with
      | false => exact Or.inl rfl
      | true =>
        cases h2 : truthy (prop body "jenis_kelamin") with
        | false => exact Or.inr (Or.inl rfl)
        | true =>
          cases h3 : truthy (prop body "tanggal_kehadiran") with
          | false => exact Or.inr (Or.inr rfl)
          | true => exact absurd ⟨h1, h2, h3⟩ hreq
    rw [tamu_invalid env body hmiss]
    exact ⟨_, rfl, by decide⟩

theorem schemaTamu_failure_body (env : Env) (o : Outcome) (ho : schemaTamu env = some o)
    (hs : 400 ≤ o.resp.status) :
    ∃ msg, o.resp.body = JsVal.obj [("error", JsVal.str msg)] ∧ msg ≠ "" := by
  unfold schemaTamu at ho
  cases hq : env.query schemaSql [] with
  | error e =>
    simp only [hq, Option.some.injEq] at ho
    subst ho
    exact ⟨_, rfl, by decide⟩
  | ok reply =>
    cases reply with
    | header i => simp [hq] at ho
    | rows results =>
      simp only [hq, Option.some.injEq] at ho
      subst ho
      simp at hs

/-! ## Validation -/

/-- When a required field is missing or empty (the handler's test `!field` holds: the
field is absent, `null`, `""`, `0` or `false`), `/api/login` and `POST /api/tamu` answer
400 with the body `{error: <fixed message>}` and make no call to the store or to the
verifier; `/api/admin-login` does so when the conversion of `nama_pengguna` to a string
completes, and otherwise ends before the validation, without a response. -/
theorem missing_field_rejected_before_store (env : Env) (body : Obj) :
    ((truthy (prop body "username") = false ∨ truthy (prop body "password") = false) →
      login env body =
        { resp := { status := 400,
                    body := JsVal.obj [("error", JsVal.str "Username dan password wajib diisi")] },
          trace := [] }) ∧
    ((truthy (prop body "nama_pengguna") = false ∨ truthy (prop body "password") = false) →
      adminLogin env body =
        if stringifies (prop body "nama_pengguna") = true then
          { resp := some { status := 400,
                           body := JsVal.obj
                             [("error", JsVal.str "Nama pengguna dan password admin wajib diisi")] },
            trace := [] }
        else { resp := none, trace := [] }) ∧
    ((truthy (prop body "nama_lengkap") = false ∨ truthy (prop body "jenis_kelamin") = false
        ∨ truthy (prop body "tanggal_kehadiran") = false) →
      tamu env body =
        { resp := { status := 400,
                    body := JsVal.obj [("error", JsVal.str
                      "Data tamu wajib (nama, jenis kelamin, tanggal hadir) tidak lengkap")] },
          trace := [] }) := by
  refine ⟨login_invalid env body, ?_, tamu_invalid env body⟩
  intro h
  cases hs : stringifies (prop body "nama_pengguna") with
  | false => simpa using adminLogin_throws env body hs
  | true => simpa using adminLogin_invalid env body hs h

/-- C2 fails on the admin login.  The body `{"nama_pengguna": {"toString": 1}}` has no
`password`, so a required field is missing; the conversion of `nama_pengguna` to a string
in the first log line throws, before the validation and outside the `try`, and the
handler sends no response: no 400.  (It makes no call either.)  The user login answers
400 to a body of the same shape. -/
theorem admin_missing_field_throws :
    truthy (prop shadowedAdminLogin "password") = false ∧
    stringifies (prop shadowedAdminLogin "nama_pengguna") = false ∧
    adminLogin (fixedEnv (Except.ok (Reply.rows [sampleAdmin])) (Except.ok true))
        shadowedAdminLogin = { resp := none, trace := [] } ∧
    login (fixedEnv (Except.ok (Reply.rows [sampleUser])) (Except.ok true))
        [("username", JsVal.obj [("toString", JsVal.num 1)])] =
      { resp := { status := 400,
                  body := JsVal.obj [("error", JsVal.str "Username dan password wajib diisi")] },
        trace := [] } :=
  ⟨rfl, rfl, rfl, rfl⟩

/-! ## Login -/

/-- C1: a user login or an admin login answers 200 only if both credential fields were
non-empty, the store lookup returned at least one row and the verifier returned `true`
for the supplied password against the stored hash of the first row.  A lookup that
fails and a verifier that fails both give status 500 with the fixed message of the
handler. -/
theorem login_ok_only_if_verified (env : Env) (body : Obj) :
    ((login env body).resp.status = 200 →
      truthy (prop body "username") = true ∧ truthy (prop body "password") = true ∧
      ∃ user rest,
        env.query userLookupSql [prop body "username"] = Except.ok (Reply.rows (user :: rest)) ∧
        env.compare (prop body "password") (column user "password") = Except.ok true) ∧
    (((∃ params e, Event.query userLookupSql params (Except.error e) ∈ (login env body).trace) ∨
        (∃ pw hash e, Event.compare pw hash (Except.error e) ∈ (login env body).trace)) →
      (login env body).resp =
        { status := 500,
          body := JsVal.obj
            [("error", JsVal.str "Terjadi kesalahan server saat mengambil data user")] }) ∧
    ((∃ r, (adminLogin env body).resp = some r ∧ r.status = 200) →
      truthy (prop body "nama_pengguna") = true ∧ truthy (prop body "password") = true ∧
      ∃ admin rest,
        env.query adminLookupSql [prop body "nama_pengguna"] =
          Except.ok (Reply.rows (admin :: rest)) ∧
        env.compare (prop body "password") (column admin "password") = Except.ok true) ∧
    (((∃ params e,
          Event.query adminLookupSql params (Except.error e) ∈ (adminLogin env body).trace) ∨
        (∃ pw hash e, Event.compare pw hash (Except.error e) ∈ (adminLogin env body).trace)) →
      (adminLogin env body).resp =
        some { status := 500,
               body := JsVal.obj
                 [("error", JsVal.str "Kesalahan server saat mengambil data admin")] }) := by
  refine ⟨?_, ?_, ?_, ?_⟩
  · intro h
    cases hu : truthy (prop body "username") with
    | false => rw [login_invalid env body (Or.inl hu)] at h; simp at h
    | true =>
      cases hp : truthy (prop body "password") with
      | false => rw [login_invalid env body (Or.inr hp)] at h; simp at h
      | true =>
        refine ⟨rfl, rfl, ?_⟩
        cases hq : env.query userLookupSql [prop body "username"] with
        | error e => rw [login_store_fault env body e hu hp hq] at h; simp [loginFault] at h
        | ok reply =>
          cases reply with
          | header i => rw [login_not_rows env body i hu hp hq] at h; simp [loginFault] at h
          | rows rs =>
            cases rs with
            | nil => rw [login_no_row env body hu hp hq] at h; simp at h
            | cons user rest =>
              rw [login_row env body user rest hu hp hq] at h
              refine ⟨user, rest, rfl, ?_⟩
              cases hm : env.compare (prop body "password") (column user "password") with
              | error e => simp [hm, loginFault] at h
              | ok b =>
                cases b with
                | false => simp [hm] at h
                | true => rfl
  · intro h
    cases hu : truthy (prop body "username") with
    | false => rw [login_invalid env body (Or.inl hu)] at h; simp at h
    | true =>
      cases hp : truthy (prop body "password") with
      | false => rw [login_invalid env body (Or.inr hp)] at h; simp at h
      | true =>
        cases hq : env.query userLookupSql [prop body "username"] with
        | error e => rw [login_store_fault env body e hu hp hq]; rfl
        | ok reply =>
          cases reply with
          | header i => rw [login_not_rows env body i hu hp hq]; rfl
          | rows rs =>
            cases rs with
            | nil => rw [login_no_row env body hu hp hq] at h; simp at h
            | cons user rest =>
              rw [login_row env body user rest hu hp hq] at h ⊢
              cases hm : env.compare (prop body "password") (column user "password") with
              | error e => rfl
              | ok b => simp [hm] at h
  · rintro ⟨r, hr, h200⟩
    cases hs : stringifies (prop body "nama_pengguna") with
    | false => rw [adminLogin_throws env body hs] at hr; simp at hr
    | true =>
      cases hu : truthy (prop body "nama_pengguna") with
      | false =>
        rw [adminLogin_invalid env body hs (Or.inl hu)] at hr
        simp only [Option.some.injEq] at hr
        subst hr
        simp at h200
      | true =>
        cases hp : truthy (prop body "password") with
        | false =>
          rw [adminLogin_invalid env body hs (Or.inr hp)] at hr
          simp only [Option.some.injEq] at hr
          subst hr
          simp at h200
        | true =>
          refine ⟨rfl, rfl, ?_⟩
          cases hq : env.query adminLookupSql [prop body "nama_pengguna"] with
          | error e =>
            rw [adminLogin_store_fault env body e hs hu hp hq] at hr
            simp only [Option.some.injEq] at hr
            subst hr
            simp [adminFault] at h200
          | ok reply =>
            cases reply with
            | header i =>
              rw [adminLogin_not_rows env body i hs hu hp hq] at hr
              simp only [Option.some.injEq] at hr
              subst hr
              simp [adminFault] at h200
            | rows rs =>
              cases rs with
              | nil =>
                rw [adminLogin_no_row env body hs hu hp hq] at hr
                simp only [Option.some.injEq] at hr
                subst hr
                simp at h200
              | cons admin rest =>
                refine ⟨admin, rest, rfl, ?_⟩
                cases hm : env.compare (prop body "password") (column admin "password") with
                | error e =>
                  rw [adminLogin_verifier_fault env body admin rest e hs hu hp hq hm] at hr
                  simp only [Option.some.injEq] at hr
                  subst hr
                  simp [adminFault] at h200
                | ok b =>
                  cases b with
                  | false =>
                    rw [adminLogin_mismatch env body admin rest hs hu hp hq hm] at hr
                    simp only [Option.some.injEq] at hr
                    subst hr
                    simp at h200
                  | true => rfl
  · intro h
    have hcalled : stringifies (prop body "nama_pengguna") = true ∧
        truthy (prop body "nama_pengguna") = true ∧ truthy (prop body "password") = true := by
      rcases h with ⟨params, e, h⟩ | ⟨pw, hash, e, h⟩
      · exact adminLogin_called env body _ h
      · exact adminLogin_called env body _ h
    obtain ⟨hs, hu, hp⟩ := hcalled
    cases hq : env.query adminLookupSql [prop body "nama_pengguna"] with
    | error e => rw [adminLogin_store_fault env body e hs hu hp hq]; rfl
    | ok reply =>
      cases reply with
      | header i => rw [adminLogin_not_rows env body i hs hu hp hq]; rfl
      | rows rs =>
        cases rs with
        | nil => rw [adminLogin_no_row env body hs hu hp hq] at h; simp at h
        | cons admin rest =>
          cases hm : env.compare (prop body "password") (column admin "password") with
          | error e =>
            rw [adminLogin_verifier_fault env body admin rest e hs hu hp hq hm]; rfl
          | ok b =>
            cases b with
            | false =>
              rw [adminLogin_mismatch env body admin rest hs hu hp hq hm] at h; simp at h
            | true =>
              rw [adminLogin_match env body admin rest hs hu hp hq hm] at h
              simp [adminLogSql, adminLookupSql] at h

/-- C1 at concrete requests: an accepted login was verified against the first row; a
store that fails and a verifier that fails give the 500 response. -/
theorem login_ok_only_if_verified_witness :
    (∃ user rest,
      (fixedEnv (Except.ok (Reply.rows [sampleUser])) (Except.ok true)).query userLookupSql
          [prop sampleLogin "username"] = Except.ok (Reply.rows (user :: rest)) ∧
      (fixedEnv (Except.ok (Reply.rows [sampleUser])) (Except.ok true)).compare
          (prop sampleLogin "password") (column user "password") = Except.ok true) ∧
    (login (fixedEnv (Except.error (errorObj "connect ECONNREFUSED")) (Except.ok true))
        sampleLogin).resp =
      { status := 500,
        body := JsVal.obj
          [("error", JsVal.str "Terjadi kesalahan server saat mengambil data user")] } ∧
    (∃ admin rest,
      (fixedEnv (Except.ok (Reply.rows [sampleAdmin])) (Except.ok true)).query adminLookupSql
          [prop sampleAdminLogin "nama_pengguna"] = Except.ok (Reply.rows (admin :: rest)) ∧
      (fixedEnv (Except.ok (Reply.rows [sampleAdmin])) (Except.ok true)).compare
          (prop sampleAdminLogin "password") (column admin "password") = Except.ok true) ∧
    (adminLogin (fixedEnv (Except.ok (Reply.rows [sampleAdmin]))
        (Except.error (errorObj "Illegal arguments: string, undefined"))) sampleAdminLogin).resp =
      some { status := 500,
             body := JsVal.obj
               [("error", JsVal.str "Kesalahan server saat mengambil data admin")] } :=
  ⟨((login_ok_only_if_verified
      (fixedEnv (Except.ok (Reply.rows [sampleUser])) (Except.ok true)) sampleLogin).1 rfl).2.2,
   (login_ok_only_if_verified
      (fixedEnv (Except.error (errorObj "connect ECONNREFUSED")) (Except.ok true))
      sampleLogin).2.1 (Or.inl ⟨_, _, List.Mem.head _⟩),
   ((login_ok_only_if_verified
      (fixedEnv (Except.ok (Reply.rows [sampleAdmin])) (Except.ok true))
      sampleAdminLogin).2.2.1 ⟨_, rfl, rfl⟩).2.2,
   (login_ok_only_if_verified
      (fixedEnv (Except.ok (Reply.rows [sampleAdmin]))
        (Except.error (errorObj "Illegal arguments: string, undefined")))
      sampleAdminLogin).2.2.2 (Or.inr ⟨_, _, _, List.Mem.tail _ (List.Mem.head _)⟩)⟩

/-- C4: with non-empty credentials and a lookup that succeeds with zero rows, the user
login answers 401 `Username tidak ditemukan` and the admin login 401
`Admin tidak ditemukan`; the status is not 500 and the verifier is not called (the only
call is the lookup).  For the admin login the premise is the lookup of the request
itself, found in its trace with zero rows as result. -/
theorem unknown_identity_unauthorized (env : Env) (body : Obj) :
    (truthy (prop body "username") = true → truthy (prop body "password") = true →
      env.query userLookupSql [prop body "username"] = Except.ok (Reply.rows []) →
      login env body =
        { resp := { status := 401,
                    body := JsVal.obj [("error", JsVal.str "Username tidak ditemukan")] },
          trace := [Event.query userLookupSql [prop body "username"]
            (Except.ok (Reply.rows []))] } ∧
      (login env body).resp.status ≠ 500 ∧
      ∀ pw hash m, Event.compare pw hash m ∉ (login env body).trace) ∧
    ((∃ params,
        Event.query adminLookupSql params (Except.ok (Reply.rows [])) ∈
          (adminLogin env body).trace) →
      adminLogin env body =
        { resp := some { status := 401,
                         body := JsVal.obj [("error", JsVal.str "Admin tidak ditemukan")] },
          trace := [Event.query adminLookupSql [prop body "nama_pengguna"]
            (Except.ok (Reply.rows []))] } ∧
      (∀ r, (adminLogin env body).resp = some r → r.status ≠ 500) ∧
      ∀ pw hash m, Event.compare pw hash m ∉ (adminLogin env body).trace) := by
  constructor
  · intro hu hp hq
    rw [login_no_row env body hu hp hq]
    exact ⟨rfl, by simp, by simp⟩
  · intro hq
    rw [adminLogin_unknown env body hq]
    refine ⟨rfl, ?_, by simp⟩
    intro r hr
    simp only [Option.some.injEq] at hr
    subst hr
    simp

/-- C4 at a store without the requested identities. -/
theorem unknown_identity_unauthorized_witness :
    (login (fixedEnv (Except.ok (Reply.rows [])) (Except.ok true)) sampleLogin).resp =
      { status := 401, body := JsVal.obj [("error", JsVal.str "Username tidak ditemukan")] } ∧
    (adminLogin (fixedEnv (Except.ok (Reply.rows [])) (Except.ok true))
        sampleAdminLogin).resp =
      some { status := 401,
             body := JsVal.obj [("error", JsVal.str "Admin tidak ditemukan")] } :=
  ⟨congrArg Outcome.resp
      (((unknown_identity_unauthorized (fixedEnv (Except.ok (Reply.rows [])) (Except.ok true))
        sampleLogin).1 rfl rfl rfl).1),
   congrArg Run.resp
      (((unknown_identity_unauthorized (fixedEnv (Except.ok (Reply.rows [])) (Except.ok true))
        sampleAdminLogin).2 ⟨_, List.Mem.head _⟩).1)⟩

/-- C5: with non-empty credentials, a lookup that returns at least one row and a verifier
that returns `false` for the hash of the first row, the user login answers 401
`Password salah` and the admin login 401 `Password admin salah`.  The body differs from
the not-found body of the same endpoint, and the admin login issues no insert into the
admin log.  For the admin login the premises are the lookup and the comparison of the
request itself, found in its trace with their results. -/
theorem wrong_password_unauthorized (env : Env) (body : Obj) (row : Row) (rest : List Row) :
    (truthy (prop body "username") = true → truthy (prop body "password") = true →
      env.query userLookupSql [prop body "username"] = Except.ok (Reply.rows (row :: rest)) →
      env.compare (prop body "password") (column row "password") = Except.ok false →
      login env body =
        { resp := { status := 401, body := JsVal.obj [("error", JsVal.str "Password salah")] },
          trace := [Event.query userLookupSql [prop body "username"]
              (Except.ok (Reply.rows (row :: rest))),
            Event.compare (prop body "password") (column row "password") (Except.ok false)] } ∧
      (login env body).resp.body ≠
        JsVal.obj [("error", JsVal.str "Username tidak ditemukan")]) ∧
    ((∃ params,
        Event.query adminLookupSql params (Except.ok (Reply.rows (row :: rest))) ∈
          (adminLogin env body).trace) →
      (∃ pw hash, Event.compare pw hash (Except.ok false) ∈ (adminLogin env body).trace) →
      adminLogin env body =
        { resp := some { status := 401,
                         body := JsVal.obj [("error", JsVal.str "Password admin salah")] },
          trace := [Event.query adminLookupSql [prop body "nama_pengguna"]
              (Except.ok (Reply.rows (row :: rest))),
            Event.compare (prop body "password") (column row "password") (Except.ok false)] } ∧
      (∀ r, (adminLogin env body).resp = some r →
        r.body ≠ JsVal.obj [("error", JsVal.str "Admin tidak ditemukan")]) ∧
      ∀ params r, Event.query adminLogSql params r ∉ (adminLogin env body).trace) := by
  constructor
  · intro hu hp hq hm
    rw [login_row env body row rest hu hp hq, hm]
    exact ⟨rfl, by simp [errorBody]⟩
  · intro hq hc
    rw [adminLogin_rejected env body row rest hq hc]
    refine ⟨rfl, ?_, by simp [adminLogSql, adminLookupSql]⟩
    intro r hr
    simp only [Option.some.injEq] at hr
    subst hr
    simp [errorBody]

/-- C5 at a verifier that rejects the password. -/
theorem wrong_password_unauthorized_witness :
    (login (fixedEnv (Except.ok (Reply.rows [sampleUser])) (Except.ok false)) sampleLogin).resp =
      { status := 401, body := JsVal.obj [("error", JsVal.str "Password salah")] } ∧
    (adminLogin (fixedEnv (Except.ok (Reply.rows [sampleAdmin])) (Except.ok false))
        sampleAdminLogin).resp =
      some { status := 401, body := JsVal.obj [("error", JsVal.str "Password admin salah")] } :=
  ⟨congrArg Outcome.resp
      ((wrong_password_unauthorized
        (fixedEnv (Except.ok (Reply.rows [sampleUser])) (Except.ok false)) sampleLogin
        sampleUser []).1 rfl rfl rfl rfl).1,
   congrArg Run.resp
      ((wrong_password_unauthorized
        (fixedEnv (Except.ok (Reply.rows [sampleAdmin])) (Except.ok false)) sampleAdminLogin
        sampleAdmin []).2 ⟨_, List.Mem.head _⟩
        ⟨_, _, List.Mem.tail _ (List.Mem.head _)⟩).1⟩

/-- C3: when the lookup returned at least one row and the verifier returned `true`, the
user login answers 200 with exactly `{message, user: {id, name, nip, username}}` and the
admin login 200 with exactly `{message, admin: {id, nama_pengguna}}`, the values read
from the first row.  No field of the body is named `password`, and a second accepted
login whose first row agrees with this one on every column but `password` gets the same
response. -/
theorem accepted_login_body (env : Env) (body : Obj) (row : Row) (rest : List Row) :
    ((∃ params,
        Event.query userLookupSql params (Except.ok (Reply.rows (row :: rest))) ∈
          (login env body).trace) →
      (∃ pw hash, Event.compare pw hash (Except.ok true) ∈ (login env body).trace) →
      (login env body).resp =
        { status := 200,
          body := JsVal.obj [("message", JsVal.str "Login user berhasil"),
            ("user", JsVal.obj [("id", column row "id"), ("name", column row "name"),
              ("nip", column row "nip"), ("username", column row "username")])] } ∧
      fieldNames (login env body).resp.body = ["message", "user"] ∧
      fieldNames (field (login env body).resp.body "user") = ["id", "name", "nip", "username"] ∧
      ∀ (env2 : Env) (body2 : Obj) (row2 : Row) (rest2 : List Row),
        (∃ params,
          Event.query userLookupSql params (Except.ok (Reply.rows (row2 :: rest2))) ∈
            (login env2 body2).trace) →
        (∃ pw hash, Event.compare pw hash (Except.ok true) ∈ (login env2 body2).trace) →
        (∀ key, key ≠ "password" → column row2 key = column row key) →
        (login env2 body2).resp = (login env body).resp) ∧
    ((∃ params,
        Event.query adminLookupSql params (Except.ok (Reply.rows (row :: rest))) ∈
          (adminLogin env body).trace) →
      (∃ pw hash, Event.compare pw hash (Except.ok true) ∈ (adminLogin env body).trace) →
      (∃ r, (adminLogin env body).resp = some r ∧
        r = { status := 200,
              body := JsVal.obj [("message", JsVal.str "Login admin berhasil"),
                ("admin", JsVal.obj [("id", column row "id"),
                  ("nama_pengguna", column row "nama_pengguna")])] } ∧
        fieldNames r.body = ["message", "admin"] ∧
        fieldNames (field r.body "admin") = ["id", "nama_pengguna"]) ∧
      ∀ (env2 : Env) (body2 : Obj) (row2 : Row) (rest2 : List Row),
        (∃ params,
          Event.query adminLookupSql params (Except.ok (Reply.rows (row2 :: rest2))) ∈
            (adminLogin env2 body2).trace) →
        (∃ pw hash,
          Event.compare pw hash (Except.ok true) ∈ (adminLogin env2 body2).trace) →
        (∀ key, key ≠ "password" → column row2 key = column row key) →
        (adminLogin env2 body2).resp = (adminLogin env body).resp) := by
  constructor
  · intro hq hc
    rw [login_accepted env body row rest hq hc]
    refine ⟨rfl, rfl, rfl, ?_⟩
    intro env2 body2 row2 rest2 hq2 hc2 hsame
    rw [login_accepted env2 body2 row2 rest2 hq2 hc2]
    simp [loginBody, hsame]
  · intro hq hc
    rw [adminLogin_accepted env body row rest hq hc]
    refine ⟨⟨_, rfl, rfl, rfl, rfl⟩, ?_⟩
    intro env2 body2 row2 rest2 hq2 hc2 hsame
    rw [adminLogin_accepted env2 body2 row2 rest2 hq2 hc2]
    simp [adminBody, hsame]

/-- C3 at concrete requests: the accepted logins of `sampleUser` and `sampleAdmin`, and
the same rows with another stored hash. -/
theorem accepted_login_body_witness :
    ((login (fixedEnv (Except.ok (Reply.rows [sampleUser])) (Except.ok true)) sampleLogin).resp =
        { status := 200,
          body := JsVal.obj [("message", JsVal.str "Login user berhasil"),
            ("user", JsVal.obj [("id", JsVal.num 7), ("name", JsVal.str "Siti"),
              ("nip", JsVal.str "19870312"), ("username", JsVal.str "siti")])] } ∧
      (login (fixedEnv (Except.ok (Reply.rows
          [[("id", ColVal.num 7), ("name", ColVal.str "Siti"), ("nip", ColVal.str "19870312"),
            ("username", ColVal.str "siti"), ("password", ColVal.str "$2a$10$other")]]))
          (Except.ok true)) sampleLogin).resp =
        (login (fixedEnv (Except.ok (Reply.rows [sampleUser])) (Except.ok true))
          sampleLogin).resp) ∧
    ((adminLogin (fixedEnv (Except.ok (Reply.rows [sampleAdmin])) (Except.ok true))
          sampleAdminLogin).resp =
        some { status := 200,
               body := JsVal.obj [("message", JsVal.str "Login admin berhasil"),
                 ("admin", JsVal.obj [("id", JsVal.num 1),
                   ("nama_pengguna", JsVal.str "admin")])] } ∧
      (adminLogin (fixedEnv (Except.ok (Reply.rows
          [[("id", ColVal.num 1), ("nama_pengguna", ColVal.str "admin"),
            ("password", ColVal.str "$2a$10$other")]])) (Except.ok true)) sampleAdminLogin).resp =
        (adminLogin (fixedEnv (Except.ok (Reply.rows [sampleAdmin])) (Except.ok true))
          sampleAdminLogin).resp) := by
  have hu := (accepted_login_body
    (fixedEnv (Except.ok (Reply.rows [sampleUser])) (Except.ok true)) sampleLogin
    sampleUser []).1 ⟨_, List.Mem.head _⟩ ⟨_, _, List.Mem.tail _ (List.Mem.head _)⟩
  have ha := (accepted_login_body
    (fixedEnv (Except.ok (Reply.rows [sampleAdmin])) (Except.ok true)) sampleAdminLogin
    sampleAdmin []).2 ⟨_, List.Mem.head _⟩ ⟨_, _, List.Mem.tail _ (List.Mem.head _)⟩
  obtain ⟨⟨r, hr, hreq, -, -⟩, hsame⟩ := ha
  subst hreq
  refine ⟨⟨hu.1, ?_⟩, ⟨hr, ?_⟩⟩
  · refine hu.2.2.2 _ sampleLogin _ [] ⟨_, List.Mem.head _⟩
      ⟨_, _, List.Mem.tail _ (List.Mem.head _)⟩ ?_
    intro key hk
    have hne : ¬ "password" = key := fun h => hk h.symm
    simp [column, ColVal.toJs, sampleUser, hne]
  · refine hsame _ sampleAdminLogin _ [] ⟨_, List.Mem.head _⟩
      ⟨_, _, List.Mem.tail _ (List.Mem.head _)⟩ ?_
    intro key hk
    have hne : ¬ "password" = key := fun h => hk h.symm
    simp [column, ColVal.toJs, sampleAdmin, hne]

/-- C6: when the admin lookup returned a row and the verification succeeded, the handler
makes exactly one insert into `log_aktivitas_admin`, after the lookup and the
comparison, with `username_admin` the `nama_pengguna` of the matched row; the response is
200 with `{message, admin: {id, nama_pengguna}}` whatever that insert returns: a store
that differs from this one only in the answer to the insert gets the same response. -/
theorem admin_login_independent_of_audit (env : Env) (body : Obj) (admin : Row)
    (rest : List Row)
    (hq : ∃ params,
      Event.query adminLookupSql params (Except.ok (Reply.rows (admin :: rest))) ∈
        (adminLogin env body).trace)
    (hc : ∃ pw hash, Event.compare pw hash (Except.ok true) ∈ (adminLogin env body).trace) :
    (adminLogin env body).trace =
      [Event.query adminLookupSql [prop body "nama_pengguna"]
          (Except.ok (Reply.rows (admin :: rest))),
        Event.compare (prop body "password") (column admin "password") (Except.ok true),
        Event.query adminLogSql [column admin "nama_pengguna", env.now]
          (env.query adminLogSql [column admin "nama_pengguna", env.now])] ∧
    (adminLogin env body).resp =
      some { status := 200,
             body := JsVal.obj [("message", JsVal.str "Login admin berhasil"),
               ("admin", JsVal.obj [("id", column admin "id"),
                 ("nama_pengguna", column admin "nama_pengguna")])] } ∧
    ∀ env2 : Env,
      (∀ params, env2.query adminLookupSql params = env.query adminLookupSql params) →
      (∀ pw hash, env2.compare pw hash = env.compare pw hash) →
      (adminLogin env2 body).resp = (adminLogin env body).resp := by
  have hrun := adminLogin_accepted env body admin rest hq hc
  obtain ⟨params, hq⟩ := hq
  obtain ⟨hs, hu, hp, hq⟩ := adminLogin_lookup_event env body params _ hq
  have hm : env.compare (prop body "password") (column admin "password") = Except.ok true := by
    obtain ⟨pw, hash, hc⟩ := hc
    obtain ⟨admin2, rest2, hq2, hm⟩ := adminLogin_compare_event env body pw hash _ hc
    rw [hq] at hq2
    simp only [Except.ok.injEq, Reply.rows.injEq, List.cons.injEq] at hq2
    obtain ⟨rfl, rfl⟩ := hq2
    exact hm
  refine ⟨by rw [hrun], by rw [hrun]; rfl, ?_⟩
  intro env2 h1 h2
  rw [hrun,
    adminLogin_match env2 body admin rest hs hu hp ((h1 _).trans hq) ((h2 _ _).trans hm)]

/-- C6 at a store whose insert into the admin log fails: the login is still answered
200, and the failed insert is the third call of the request. -/
theorem admin_login_independent_of_audit_witness :
    (adminLogin (auditEnv sampleAdmin (Except.error (errorObj "ER_NO_SUCH_TABLE")))
        sampleAdminLogin).trace =
      [Event.query adminLookupSql [JsVal.str "admin"] (Except.ok (Reply.rows [sampleAdmin])),
        Event.compare (JsVal.str "rahasia") (JsVal.str "$2a$10$zyxwvutsrqponmlkjihgfe")
          (Except.ok true),
        Event.query adminLogSql [JsVal.str "admin", sampleNow]
          (Except.error (errorObj "ER_NO_SUCH_TABLE"))] ∧
    (adminLogin (auditEnv sampleAdmin (Except.error (errorObj "ER_NO_SUCH_TABLE")))
        sampleAdminLogin).resp =
      some { status := 200,
             body := JsVal.obj [("message", JsVal.str "Login admin berhasil"),
               ("admin", JsVal.obj [("id", JsVal.num 1),
                 ("nama_pengguna", JsVal.str "admin")])] } ∧
    (adminLogin (auditEnv sampleAdmin (Except.ok (Reply.header (JsVal.num 41))))
        sampleAdminLogin).resp =
      (adminLogin (auditEnv sampleAdmin (Except.error (errorObj "ER_NO_SUCH_TABLE")))
        sampleAdminLogin).resp :=
  have h := admin_login_independent_of_audit
    (auditEnv sampleAdmin (Except.error (errorObj "ER_NO_SUCH_TABLE"))) sampleAdminLogin
    sampleAdmin [] ⟨_, List.Mem.head _⟩ ⟨_, _, List.Mem.tail _ (List.Mem.head _)⟩
  ⟨h.1, h.2.1,
    h.2.2 (auditEnv sampleAdmin (Except.ok (Reply.header (JsVal.num 41))))
      (fun _ => rfl) (fun _ _ => rfl)⟩

/-! ## Guest creation -/

/-- C7, amended: with the three required fields non-empty the guest handler makes exactly
one call, the insert, with a row of 10 values in the column order of the statement:
`nama_lengkap`, `jenis_kelamin`, then for each of `email`, `no_hp`, `pekerjaan`, `alamat`,
`keperluan`, `staff`, `dituju` the supplied value when it is truthy and `null` otherwise
(absent, `null`, `""`, `0`, `false`), then `tanggal_kehadiran`; with no optional field in
the body all seven are `null`.  An insert that succeeds with generated id `n` is answered
201 `{message, id: n}`, one that fails 500 `{error}`. -/
theorem guest_insert_row (env : Env) (body : Obj)
    (h1 : truthy (prop body "nama_lengkap") = true)
    (h2 : truthy (prop body "jenis_kelamin") = true)
    (h3 : truthy (prop body "tanggal_kehadiran") = true) :
    (∃ row,
      (tamu env body).trace = [Event.query tamuInsertSql row (env.query tamuInsertSql row)] ∧
      row.length = 10 ∧
      row = prop body "nama_lengkap" :: prop body "jenis_kelamin" ::
        (["email", "no_hp", "pekerjaan", "alamat", "keperluan", "staff", "dituju"].map
          (fun col => if truthy (prop body col) = true then prop body col else JsVal.null)
          ++ [prop body "tanggal_kehadiran"]) ∧
      ((∀ col ∈ ["email", "no_hp", "pekerjaan", "alamat", "keperluan", "staff", "dituju"],
          prop body col = JsVal.undefined) →
        row = [prop body "nama_lengkap", prop body "jenis_kelamin", JsVal.null, JsVal.null,
          JsVal.null, JsVal.null, JsVal.null, JsVal.null, JsVal.null,
          prop body "tanggal_kehadiran"]) ∧
      (∀ n, env.query tamuInsertSql row = Except.ok (Reply.header n) →
        (tamu env body).resp =
          { status := 201,
            body := JsVal.obj [("message", JsVal.str "Data tamu berhasil disimpan"),
              ("id", n)] }) ∧
      (∀ e, env.query tamuInsertSql row = Except.error e →
        (tamu env body).resp =
          { status := 500,
            body := JsVal.obj [("error", JsVal.str "Gagal menyimpan data tamu ke database")] })) := by
  refine ⟨tamuValues body, ?_, rfl, rfl, ?_, ?_, ?_⟩
  · rw [tamu_valid env body h1 h2 h3]
  · intro h
    simp only [List.mem_cons, List.mem_singleton, forall_eq_or_imp, forall_eq] at h
    obtain ⟨e1, e2, e3, e4, e5, e6, e7, -⟩ := h
    simp [tamuValues, orNull, e1, e2, e3, e4, e5, e6, e7, truthy]
  · intro n hn
    rw [tamu_valid env body h1 h2 h3, hn]
    rfl
  · intro e he
    rw [tamu_valid env body h1 h2 h3, he]
    rfl

/-- C7, amended, at a body with only the three required fields: seven `null`s and the
generated id in the 201 response; and at a store that fails: 500. -/
theorem guest_insert_row_witness :
    (tamu (fixedEnv (Except.ok (Reply.header (JsVal.num 12))) (Except.ok true))
        sampleGuest) =
      { resp := { status := 201,
                  body := JsVal.obj [("message", JsVal.str "Data tamu berhasil disimpan"),
                    ("id", JsVal.num 12)] },
        trace := [Event.query tamuInsertSql
          [JsVal.str "Budi", JsVal.str "L", JsVal.null, JsVal.null, JsVal.null, JsVal.null,
            JsVal.null, JsVal.null, JsVal.null, JsVal.str "2024-05-01"]
          (Except.ok (Reply.header (JsVal.num 12)))] } ∧
    (tamu (fixedEnv (Except.error (errorObj "ER_DATA_TOO_LONG")) (Except.ok true))
        sampleGuest).resp =
      { status := 500,
        body := JsVal.obj [("error", JsVal.str "Gagal menyimpan data tamu ke database")] } := by
  obtain ⟨row, htrace, -, hrow, -, hok, -⟩ := guest_insert_row
    (fixedEnv (Except.ok (Reply.header (JsVal.num 12))) (Except.ok true)) sampleGuest
    rfl rfl rfl
  obtain ⟨row2, -, -, -, -, -, hfail⟩ := guest_insert_row
    (fixedEnv (Except.error (errorObj "ER_DATA_TOO_LONG")) (Except.ok true)) sampleGuest
    rfl rfl rfl
  refine ⟨?_, hfail _ rfl⟩
  have hresp := hok (JsVal.num 12) rfl
  subst hrow
  cases hout : tamu (fixedEnv (Except.ok (Reply.header (JsVal.num 12))) (Except.ok true))
    sampleGuest with
  | mk resp trace =>
    rw [hout] at hresp htrace
    simp only at hresp htrace
    rw [hresp, htrace]
    rfl

/-- C7 as stated fails: a body that supplies the empty string for `email` has its three
required fields non-empty, yet the third value of the inserted row is `null`, not the
supplied value. -/
theorem guest_insert_row_counterexample :
    truthy (prop (("email", JsVal.str "") :: sampleGuest) "nama_lengkap") = true ∧
    truthy (prop (("email", JsVal.str "") :: sampleGuest) "jenis_kelamin") = true ∧
    truthy (prop (("email", JsVal.str "") :: sampleGuest) "tanggal_kehadiran") = true ∧
    prop (("email", JsVal.str "") :: sampleGuest) "email" = JsVal.str "" ∧
    (tamu (fixedEnv (Except.ok (Reply.header (JsVal.num 12))) (Except.ok true))
        (("email", JsVal.str "") :: sampleGuest)).trace =
      [Event.query tamuInsertSql
        [JsVal.str "Budi", JsVal.str "L", JsVal.null, JsVal.null, JsVal.null, JsVal.null,
          JsVal.null, JsVal.null, JsVal.null, JsVal.str "2024-05-01"]
        (Except.ok (Reply.header (JsVal.num 12)))] ∧
    (tamuValues (("email", JsVal.str "") :: sampleGuest)).get? 2 ≠
      some (prop (("email", JsVal.str "") :: sampleGuest) "email") := by
  refine ⟨rfl, rfl, rfl, rfl, rfl, ?_⟩
  simp [tamuValues, orNull, prop, truthy]

/-! ## Schema and status -/

/-- C8: for the column descriptors `results` the store returns for `DESCRIBE tamu`, the
`missingColumns` of the schema response are the required columns that no descriptor
names in its `Field`: the difference of the fixed list of 11 required columns and the
observed names, in the order of the required list and without duplicates, reported as
`null` when empty; `status` is `"valid"` exactly when the difference is empty and
`"invalid"` otherwise.  When every required column but `email` is observed, the
difference is `["email"]`. -/
theorem schema_missing_is_difference (env : Env) (results : List Row)
    (h : env.query schemaSql [] = Except.ok (Reply.rows results)) :
    requiredColumns =
      ["id", "nama_lengkap", "jenis_kelamin", "email", "no_hp", "pekerjaan", "alamat",
        "keperluan", "staff", "dituju", "tanggal_kehadiran"] ∧
    ∃ missing : List String,
      (∀ col, col ∈ missing ↔
        col ∈ requiredColumns ∧ ∀ r ∈ results, column r "Field" ≠ JsVal.str col) ∧
      missing.Sublist requiredColumns ∧ missing.Nodup ∧
      schemaTamu env = some
        { resp := { status := 200,
                    body := JsVal.obj [("table", JsVal.str "tamu"),
                      ("schema", JsVal.arr (results.map rowObj)),
                      ("status", JsVal.str (if missing = [] then "valid" else "invalid")),
                      ("missingColumns",
                        if missing = [] then JsVal.null
                        else JsVal.arr (missing.map JsVal.str))] },
          trace := [Event.query schemaSql [] (Except.ok (Reply.rows results))] } ∧
      ((∀ col ∈ requiredColumns,
          (∃ r ∈ results, column r "Field" = JsVal.str col) ↔ col ≠ "email") →
        missing = ["email"]) := by
  refine ⟨rfl, missingColumns results, mem_missingColumns results, ?_, ?_, ?_, ?_⟩
  · exact List.filter_sublist _
  · exact requiredColumns_nodup.sublist (List.filter_sublist _)
  · unfold schemaTamu
    simp only [h]
    cases hm : missingColumns results with
    | nil => simp [schemaBody, hm]
    | cons c cs => simp [schemaBody, hm]
  · intro hall
    have hfilter : missingColumns results =
        requiredColumns.filter (fun col => decide (col = "email")) := by
      unfold missingColumns
      apply List.filter_congr
      intro col hcol
      have hiff := hall col hcol
      by_cases he : col = "email"
      · have hnone : ¬ ∃ r ∈ results, column r "Field" = JsVal.str col := fun hex =>
          (hiff.1 hex) he
        cases hany : results.any (fun r => strictEqStr (column r "Field") col) with
        | false => simp [he]
        | true => exact absurd ((any_field_iff results col).1 hany) hnone
      · have hany := (any_field_iff results col).2 (hiff.2 he)
        simp [hany, he]
    rw [hfilter]
    decide

/-- C8 at a table that lacks `email`: the response is `invalid` and names `email`. -/
theorem schema_missing_is_difference_witness :
    schemaTamu (fixedEnv (Except.ok (Reply.rows sampleColumns)) (Except.ok true)) = some
      { resp := { status := 200,
                  body := JsVal.obj [("table", JsVal.str "tamu"),
                    ("schema", JsVal.arr (sampleColumns.map rowObj)),
                    ("status", JsVal.str "invalid"),
                    ("missingColumns", JsVal.arr [JsVal.str "email"])] },
        trace := [Event.query schemaSql [] (Except.ok (Reply.rows sampleColumns))] } := by
  obtain ⟨-, missing, -, -, -, hresp, hemail⟩ := schema_missing_is_difference
    (fixedEnv (Except.ok (Reply.rows sampleColumns)) (Except.ok true)) sampleColumns rfl
  have hm : missing = ["email"] := by
    apply hemail
    intro col hcol
    simp only [requiredColumns, List.mem_cons, List.mem_singleton, List.not_mem_nil,
      or_false] at hcol
    rcases hcol with rfl | rfl | rfl | rfl | rfl | rfl | rfl | rfl | rfl | rfl | rfl <;>
      simp [sampleColumns, column, ColVal.toJs]
  subst hm
  rw [hresp]
  rfl

/-- C9, amended: when the liveness query fails the status handler answers 500 with
`status: "degraded"`, `server: "running"`, `database: "disconnected"` and, as
`error_message`, the `message` of the error the query failed with, a non-empty string
exactly when that message is one; when the query succeeds it answers 200 with
`status: "online"`, `server: "running"`, `database: "connected"`. -/
theorem status_reports_store (env : Env) :
    (∀ err, env.query statusSql [] = Except.error err →
      (status env).resp =
        { status := 500,
          body := JsVal.obj [("status", JsVal.str "degraded"), ("server", JsVal.str "running"),
            ("database", JsVal.str "disconnected"), ("error_message", prop err "message"),
            ("timestamp", env.now)] } ∧
      nonEmptyStr (field (status env).resp.body "error_message") =
        nonEmptyStr (prop err "message")) ∧
    (∀ reply, env.query statusSql [] = Except.ok reply →
      (status env).resp =
        { status := 200,
          body := JsVal.obj [("status", JsVal.str "online"), ("server", JsVal.str "running"),
            ("database", JsVal.str "connected"), ("timestamp", env.now)] }) := by
  constructor
  · intro err h
    unfold status
    simp only [h]
    exact ⟨trivial, rfl⟩
  · intro reply h
    unfold status
    simp only [h]

/-- C9, amended, at a store that refuses the connection and at one that answers. -/
theorem status_reports_store_witness :
    ((status (fixedEnv (Except.error (errorObj "connect ECONNREFUSED 127.0.0.1:3306"))
        (Except.ok true))).resp =
      { status := 500,
        body := JsVal.obj [("status", JsVal.str "degraded"), ("server", JsVal.str "running"),
          ("database", JsVal.str "disconnected"),
          ("error_message", JsVal.str "connect ECONNREFUSED 127.0.0.1:3306"),
          ("timestamp", sampleNow)] } ∧
      nonEmptyStr (field (status (fixedEnv
        (Except.error (errorObj "connect ECONNREFUSED 127.0.0.1:3306"))
        (Except.ok true))).resp.body "error_message") = true) ∧
    (status (fixedEnv (Except.ok (Reply.rows [[("result", ColVal.num 1)]]))
        (Except.ok true))).resp =
      { status := 200,
        body := JsVal.obj [("status", JsVal.str "online"), ("server", JsVal.str "running"),
          ("database", JsVal.str "connected"), ("timestamp", sampleNow)] } :=
  ⟨(status_reports_store _).1 (errorObj "connect ECONNREFUSED 127.0.0.1:3306") rfl,
   (status_reports_store _).2 (Reply.rows [[("result", ColVal.num 1)]]) rfl⟩

/-- C9 as stated fails: the liveness query fails with an error whose message is the empty
string; the handler answers 500 with `database: "disconnected"`, and its `error_message`
is the empty string. -/
theorem status_reports_store_counterexample :
    (fixedEnv (Except.error (errorObj "")) (Except.ok true)).query statusSql [] =
      Except.error (errorObj "") ∧
    (status (fixedEnv (Except.error (errorObj "")) (Except.ok true))).resp.status = 500 ∧
    field (status (fixedEnv (Except.error (errorObj "")) (Except.ok true))).resp.body
      "database" = JsVal.str "disconnected" ∧
    field (status (fixedEnv (Except.error (errorObj "")) (Except.ok true))).resp.body
      "error_message" = JsVal.str "" ∧
    nonEmptyStr (field (status (fixedEnv (Except.error (errorObj "")) (Except.ok true))).resp.body
      "error_message") = false :=
  ⟨rfl, rfl, rfl, rfl, rfl⟩

/-! ## Failure responses -/

/-- C10, amended: a response of the schema, login, admin-login or guest-creation handler
or of the final error-handling middleware whose status is 400 or greater has the body
`{error: msg}` with `msg` a non-empty string.  (The 500 response of the status handler
is not of this form.) -/
theorem failure_has_error_message (env : Env) (body : Obj) (err : JsVal) (r : Response)
    (hr : (∃ o, schemaTamu env = some o ∧ o.resp = r) ∨ (login env body).resp = r ∨
      (adminLogin env body).resp = some r ∨ (tamu env body).resp = r ∨
      errorMiddleware err = r)
    (hs : 400 ≤ r.status) :
    ∃ msg, r.body = JsVal.obj [("error", JsVal.str msg)] ∧ msg ≠ "" := by
  rcases hr with ⟨o, ho, rfl⟩ | rfl | hr | rfl | rfl
  · exact schemaTamu_failure_body env o ho hs
  · exact login_failure_body env body hs
  · exact adminLogin_failure_body env body r hr hs
  · exact tamu_failure_body env body hs
  · exact ⟨_, rfl, by decide⟩

/-- C10, amended, at the 401 of an unknown user and at the final middleware. -/
theorem failure_has_error_message_witness :
    (∃ msg,
      (login (fixedEnv (Except.ok (Reply.rows [])) (Except.ok true)) sampleLogin).resp.body =
        JsVal.obj [("error", JsVal.str msg)] ∧ msg ≠ "") ∧
    (∃ msg,
      (errorMiddleware (JsVal.obj (errorObj "request entity too large"))).body =
        JsVal.obj [("error", JsVal.str msg)] ∧ msg ≠ "") :=
  ⟨failure_has_error_message (fixedEnv (Except.ok (Reply.rows [])) (Except.ok true))
      sampleLogin JsVal.null _ (Or.inr (Or.inl rfl)) (by decide),
   failure_has_error_message (fixedEnv (Except.ok (Reply.rows [])) (Except.ok true))
      sampleLogin (JsVal.obj (errorObj "request entity too large")) _
      (Or.inr (Or.inr (Or.inr (Or.inr rfl)))) (by decide)⟩

/-- C10 as stated fails at the status endpoint: when the liveness query fails the
response has status 500 and its body has no field `error` (the message is under
`error_message`). -/
theorem failure_has_error_message_counterexample :
    400 ≤ (status (fixedEnv (Except.error (errorObj "connect ECONNREFUSED 127.0.0.1:3306"))
      (Except.ok true))).resp.status ∧
    fieldNames (status (fixedEnv (Except.error (errorObj "connect ECONNREFUSED 127.0.0.1:3306"))
      (Except.ok true))).resp.body =
        ["status", "server", "database", "error_message", "timestamp"] ∧
    field (status (fixedEnv (Except.error (errorObj "connect ECONNREFUSED 127.0.0.1:3306"))
      (Except.ok true))).resp.body "error" = JsVal.undefined ∧
    nonEmptyStr (field (status (fixedEnv
      (Except.error (errorObj "connect ECONNREFUSED 127.0.0.1:3306"))
      (Except.ok true))).resp.body "error") = false :=
  ⟨by decide, rfl, rfl, rfl⟩

end BukuTamu
